import Mathlib

/-!
Verification of the jackett-python aggregation service (src/app/main.py)
against its natural-language specification.

The embedding follows the source file closely:

* A raw backend result (one element of the upstream `Results` array) is a
  JSON object; normalization copies its scalar payloads opaquely, so it is
  modelled as an association list from field name to string value, and
  `result.get(k)` (Python, returning `None` for a missing or null field)
  becomes an `Option`-valued lookup.
* `create_magnet_link` and `trimmed_result` are the pure normalizer
  (main.py lines 60-83).
* `fetch_jackett_results_for_indexer` (lines 43-58) is modelled as a total
  function of the HTTP outcome of its single upstream request: the Python
  body is one `try` whose handler catches every `Exception`, so transport
  failures and malformed bodies become ordinary return values, never
  exceptions to the caller.
* `event_generator` (lines 134-141) launches one task per configured
  indexer and drains them with `asyncio.as_completed`, which yields the
  batches in an arbitrary completion order; the stream is modelled as a
  flat-map over an arbitrary permutation of the configured indexer list.
  Each emitted item is serialized into one SSE data frame; the framing is
  one frame per item and is omitted from the model.
-/

/-- A raw backend result record: JSON object field names mapped to scalar
payloads (modelled as strings, since normalization copies them opaquely). -/
abbrev RawResult := List (String × String)

/-- Python `result.get(k)`: `some v` if the field is present, `none` for a
missing (or null) field. -/
def rawGet (r : RawResult) (k : String) : Option String :=
  (r.find? (fun p => p.1 == k)).map (fun p => p.2)

/-- A normalized output record or error record, as streamed to the client:
a JSON object whose values may be the explicit no-value marker (`None`). -/
abbrev Rec := List (String × Option String)

/-- Lookup in an output record (Python `d.get(k)` / `d[k]`), returning
`some v` when the key is present (`v` itself may be `none` = JSON null). -/
def dictGet (d : Rec) (k : String) : Option (Option String) :=
  (d.find? (fun p => p.1 == k)).map (fun p => p.2)

/-- main.py lines 60-70: magnet-link resolution.  Uses the magnet URI
verbatim when the field is present; otherwise, when both a torrent URL and
an info-hash are present, synthesizes a magnet link from the lowercased
info-hash; otherwise falls back to the (possibly absent) torrent URL. -/
def create_magnet_link (result : RawResult) : Option String :=
  let torrenturl := rawGet result "Link"
  let infohash := rawGet result "InfoHash"
  let magneturi := rawGet result "MagnetUri"
  match magneturi with
  | some m => some m
  | none =>
    match torrenturl, infohash with
    | some _, some h => some ("magnet:?xt=urn:btih:" ++ h.toLower)
    | _, _ => torrenturl

/-- main.py lines 72-83: the normalizer.  Builds the output record with a
fixed key list; every value is `result.get(...)`, so absent fields become
the explicit no-value marker `none`, never an omitted key.  Note the
source writes the key `"year"` in lowercase and fills `"IndexerId"` from
the raw `"Tracker"` field. -/
def trimmed_result (result : RawResult) : Rec :=
  [("Title", rawGet result "Title"),
   ("Link", create_magnet_link result),
   ("Size", rawGet result "Size"),
   ("Seeders", rawGet result "Seeders"),
   ("Leechers", rawGet result "Leechers"),
   ("InfoHash", rawGet result "InfoHash"),
   ("IndexerId", rawGet result "Tracker"),
   ("year", rawGet result "Year"),
   ("Details", rawGet result "Details")]

/-- The error record `{"error": msg}` (main.py lines 55 and 58). -/
def errRec (msg : String) : Rec := [("error", some msg)]

/-- Outcome of the single HTTP request issued by
`fetch_jackett_results_for_indexer` for one indexer:
* `response status body`: a response arrived with the given status; `body`
  is what `response.json()` would produce — `.ok results?` a parsed object
  whose optional `Results` array is `results?` (`none` when the key is
  absent), `.error e` a parse failure (raises when the body is read);
* `exn msg`: a transport-level failure (connection error, timeout), i.e.
  the request itself raised. -/
inductive HttpOutcome where
  | response (status : Nat) (body : Except String (Option (List RawResult)))
  | exn (msg : String)

/-- main.py lines 43-58: the backend query executor.  One request, whole
body wrapped in `try ... except Exception`, so it always returns a batch:
on 200 the normalized results (absent `Results` list treated as empty), on
non-200 one error record with the status, and on any raised exception
(transport failure, or body-parse failure inside the 200 branch) one error
record with the exception text. -/
def fetch_jackett_results_for_indexer (indexer_id : String)
    (outcome : HttpOutcome) : List Rec :=
  match outcome with
  | .response status body =>
    if status = 200 then
      match body with
      | .ok results? => (results?.getD []).map trimmed_result
      | .error e =>
        [errRec ("Exception fetching from indexer " ++ indexer_id ++ ": " ++ e)]
    else
      [errRec ("Error fetching from indexer " ++ indexer_id ++ ": " ++ toString status)]
  | .exn msg =>
    [errRec ("Exception fetching from indexer " ++ indexer_id ++ ": " ++ msg)]

/-- An outcome on which the executor's call fails: a non-200 status, a
malformed body, or a transport-level exception. -/
def isFailureOutcome : HttpOutcome → Bool
  | .response status body =>
    status != 200 || (match body with | .error _ => true | .ok _ => false)
  | .exn _ => true

/-- main.py lines 134-141: the fan-out aggregation stream.  One task per
configured indexer; `asyncio.as_completed` drains them in completion
order, and every element of each completed batch is yielded individually.
`completion_order` is the order in which the tasks complete (a permutation
of the configured indexer list, supplied as a hypothesis where needed);
`resp` gives the HTTP outcome each indexer's request produces. -/
def event_generator (completion_order : List String)
    (resp : String → HttpOutcome) : List Rec :=
  completion_order.flatMap
    (fun indexer_id => fetch_jackett_results_for_indexer indexer_id (resp indexer_id))

/-- A normalized record is never an error record: it has nine keys, an
error record has one. -/
theorem trimmed_result_ne_errRec (r : RawResult) (m : String) :
    trimmed_result r ≠ errRec m := by
  intro h
  have := congrArg List.length h
  simp [trimmed_result, errRec] at this

/-- On a failing outcome the executor returns exactly one error record,
whose message starts with one of the two source format strings naming the
indexer id. -/
theorem fetch_failure_shape (indexer_id : String) (o : HttpOutcome)
    (h : isFailureOutcome o = true) :
    ∃ m, fetch_jackett_results_for_indexer indexer_id o = [errRec m] ∧
      ∃ s, m = "Error fetching from indexer " ++ indexer_id ++ ": " ++ s ∨
           m = "Exception fetching from indexer " ++ indexer_id ++ ": " ++ s := by
  cases o with
  | response status body =>
    by_cases hs : status = 200
    · subst hs
      cases body with
      | ok results? => simp [isFailureOutcome] at h
      | error e =>
        exact ⟨_, by simp [fetch_jackett_results_for_indexer], e, Or.inr rfl⟩
    · exact ⟨_, by simp [fetch_jackett_results_for_indexer, hs],
        toString status, Or.inl rfl⟩
  | exn msg =>
    exact ⟨_, rfl, msg, Or.inr rfl⟩

/-! ## Claims about the normalizer and the executor -/

/-- C3: for every raw result whose magnet-URI field is empty (absent/null,
i.e. the no-value marker returned by `result.get`) but whose torrent URL
and info-hash are both present and non-empty, the normalizer's Link is
`magnet:?xt=urn:btih:` followed by the lowercased info-hash; the torrent
URL is discarded (the second conjunct: the output does not depend on it). -/
theorem create_magnet_link_synthesizes (r : RawResult) (u h : String)
    (hm : rawGet r "MagnetUri" = none)
    (hu : rawGet r "Link" = some u) (hune : u ≠ "")
    (hh : rawGet r "InfoHash" = some h) (hhne : h ≠ "") :
    create_magnet_link r = some ("magnet:?xt=urn:btih:" ++ h.toLower) ∧
    ∀ r₂ u₂, rawGet r₂ "MagnetUri" = none → rawGet r₂ "Link" = some u₂ →
      rawGet r₂ "InfoHash" = some h → create_magnet_link r₂ = create_magnet_link r := by
  constructor
  · simp [create_magnet_link, hm, hu, hh]
  · intro r₂ u₂ hm₂ hu₂ hh₂
    simp [create_magnet_link, hm, hu, hh, hm₂, hu₂, hh₂]

/-- Witness for C3 at a concrete raw result. -/
theorem create_magnet_link_synthesizes_witness :
    create_magnet_link [("Link", "http://x/t.torrent"), ("InfoHash", "AbCdEf")] =
      some ("magnet:?xt=urn:btih:" ++ "AbCdEf".toLower) :=
  (create_magnet_link_synthesizes [("Link", "http://x/t.torrent"), ("InfoHash", "AbCdEf")]
    "http://x/t.torrent" "AbCdEf" rfl rfl (by decide) rfl (by decide)).1

/-- C7 counterexample: at the raw result `{"Tracker": "trk"}` the claim as
stated fails: the output keys are not
`[Title, Link, Size, Seeders, Leechers, InfoHash, IndexerId, Year, Details]`
(the source writes `year` in lowercase), and `IndexerId` is not a direct
field-name pass-through (it is filled from the raw `Tracker` field). -/
theorem trimmed_result_claim_counterexample :
    ¬ (((trimmed_result [("Tracker", "trk")]).map Prod.fst =
          ["Title", "Link", "Size", "Seeders", "Leechers", "InfoHash",
           "IndexerId", "Year", "Details"]) ∧
       dictGet (trimmed_result [("Tracker", "trk")]) "IndexerId" =
         some (rawGet [("Tracker", "trk")] "IndexerId")) := by
  decide

/-- C7 amended: for every raw result the normalizer totally produces a
record with exactly the keys `[Title, Link, Size, Seeders, Leechers,
InfoHash, IndexerId, year, Details]` (lowercase `year`); `Title, Size,
Seeders, Leechers, InfoHash, Details` pass through by direct field-name
mapping, `IndexerId` passes through from the raw `Tracker` field and
`year` from the raw `Year` field; absent input fields map to the explicit
no-value marker `none` rather than being omitted from the record shape. -/
theorem trimmed_result_shape (r : RawResult) :
    (trimmed_result r).map Prod.fst =
      ["Title", "Link", "Size", "Seeders", "Leechers", "InfoHash",
       "IndexerId", "year", "Details"] ∧
    dictGet (trimmed_result r) "Title" = some (rawGet r "Title") ∧
    dictGet (trimmed_result r) "Size" = some (rawGet r "Size") ∧
    dictGet (trimmed_result r) "Seeders" = some (rawGet r "Seeders") ∧
    dictGet (trimmed_result r) "Leechers" = some (rawGet r "Leechers") ∧
    dictGet (trimmed_result r) "InfoHash" = some (rawGet r "InfoHash") ∧
    dictGet (trimmed_result r) "IndexerId" = some (rawGet r "Tracker") ∧
    dictGet (trimmed_result r) "year" = some (rawGet r "Year") ∧
    dictGet (trimmed_result r) "Details" = some (rawGet r "Details") :=
  ⟨rfl, rfl, rfl, rfl, rfl, rfl, rfl, rfl, rfl⟩

/-- C2: the executor is a total function of its request's outcome — it
never raises to its caller (the whole Python body is one
`try ... except Exception`).  On HTTP 200 it returns the normalized
results, an absent `Results` list giving the empty batch; on any non-200
status, exactly one error record naming the backend id and the status
code; on a transport failure or a malformed 200 body, exactly one error
record naming the backend id and the failure description. -/
theorem fetch_jackett_results_spec (indexer_id : String) (status : Nat)
    (body : Except String (Option (List RawResult)))
    (results : List RawResult) (e tmsg : String)
    (hs : status ≠ 200) :
    (fetch_jackett_results_for_indexer indexer_id (.response 200 (.ok (some results)))
        = results.map trimmed_result) ∧
    (fetch_jackett_results_for_indexer indexer_id (.response 200 (.ok none)) = []) ∧
    (fetch_jackett_results_for_indexer indexer_id (.response status body)
        = [errRec ("Error fetching from indexer " ++ indexer_id ++ ": " ++ toString status)]) ∧
    (fetch_jackett_results_for_indexer indexer_id (.response 200 (.error e))
        = [errRec ("Exception fetching from indexer " ++ indexer_id ++ ": " ++ e)]) ∧
    (fetch_jackett_results_for_indexer indexer_id (.exn tmsg)
        = [errRec ("Exception fetching from indexer " ++ indexer_id ++ ": " ++ tmsg)]) := by
  refine ⟨?_, ?_, ?_, ?_, ?_⟩ <;>
    simp [fetch_jackett_results_for_indexer, hs]

/-- Witness for C2 at a concrete backend id, status and outcomes. -/
theorem fetch_jackett_results_spec_witness :
    (fetch_jackett_results_for_indexer "idx" (.response 200 (.ok (some [[("Title", "t")]])))
        = [[("Title", "t")]].map trimmed_result) ∧
    (fetch_jackett_results_for_indexer "idx" (.response 200 (.ok none)) = []) ∧
    (fetch_jackett_results_for_indexer "idx" (.response 503 (.ok none))
        = [errRec ("Error fetching from indexer " ++ "idx" ++ ": " ++ toString 503)]) ∧
    (fetch_jackett_results_for_indexer "idx" (.response 200 (.error "bad json"))
        = [errRec ("Exception fetching from indexer " ++ "idx" ++ ": " ++ "bad json")]) ∧
    (fetch_jackett_results_for_indexer "idx" (.exn "timeout")
        = [errRec ("Exception fetching from indexer " ++ "idx" ++ ": " ++ "timeout")]) :=
  fetch_jackett_results_spec "idx" 503 (.ok none) [[("Title", "t")]] "bad json" "timeout"
    (by decide)

/-- C8: when the configured backend set is empty there are no tasks to
drain, so the stream ends immediately with zero elements and no error
(the generator is a total function; nothing error-shaped is emitted). -/
theorem event_generator_empty_registry (completion_order : List String)
    (resp : String → HttpOutcome)
    (h : completion_order.Perm ([] : List String)) :
    event_generator completion_order resp = [] := by
  rw [h.eq_nil]
  rfl

/-- Witness for C8: the empty registry at a concrete response function. -/
theorem event_generator_empty_registry_witness :
    event_generator [] (fun _ => .exn "unused") = [] :=
  event_generator_empty_registry [] (fun _ => .exn "unused") (List.Perm.refl [])

/-- C1: failure isolation of the fan-out search.  For a registry of three
distinct backends A, B, C where B's call fails (non-200, malformed body or
transport error) and A's and C's calls return 200 with result lists `as`
and `cs`, the aggregated stream — in whatever completion order the tasks
finish — is a permutation of A's normalized results, C's normalized
results and one error record attributable to B (its message is one of the
two source format strings naming B); that error record occurs exactly
once, and the stream length is `|as| + |cs| + 1`.  The generator is a
total function, so B's failure never aborts the aggregate operation. -/
theorem event_generator_failure_isolation (A B C : String)
    (as cs : List RawResult) (completion_order : List String)
    (resp : String → HttpOutcome)
    (hAB : A ≠ B) (hAC : A ≠ C) (hBC : B ≠ C)
    (hperm : completion_order.Perm [A, B, C])
    (hA : resp A = .response 200 (.ok (some as)))
    (hC : resp C = .response 200 (.ok (some cs)))
    (hB : isFailureOutcome (resp B) = true) :
    ∃ m,
      (event_generator completion_order resp).Perm
        (as.map trimmed_result ++ cs.map trimmed_result ++ [errRec m]) ∧
      (∃ s, m = "Error fetching from indexer " ++ B ++ ": " ++ s ∨
            m = "Exception fetching from indexer " ++ B ++ ": " ++ s) ∧
      (event_generator completion_order resp).countP (fun x => decide (x = errRec m)) = 1 ∧
      (event_generator completion_order resp).length = as.length + cs.length + 1 := by
  obtain ⟨m, hfB, hshape⟩ := fetch_failure_shape B (resp B) hB
  have hstream : (event_generator completion_order resp).Perm
      (as.map trimmed_result ++ cs.map trimmed_result ++ [errRec m]) := by
    have h1 : (event_generator completion_order resp).Perm
        ([A, B, C].flatMap
          (fun indexer_id => fetch_jackett_results_for_indexer indexer_id (resp indexer_id))) :=
      List.Perm.flatMap_right _ hperm
    have h2 : [A, B, C].flatMap
        (fun indexer_id => fetch_jackett_results_for_indexer indexer_id (resp indexer_id))
        = as.map trimmed_result ++ ([errRec m] ++ cs.map trimmed_result) := by
      simp only [List.flatMap_cons, List.flatMap_nil]
      rw [hA, hC, hfB]
      simp [fetch_jackett_results_for_indexer]
    rw [h2] at h1
    refine h1.trans ?_
    rw [List.append_assoc]
    exact List.Perm.append_left _ List.perm_append_comm
  refine ⟨m, hstream, hshape, ?_, ?_⟩
  · rw [hstream.countP_eq]
    have hz : ∀ rs : List RawResult,
        (rs.map trimmed_result).countP (fun x => decide (x = errRec m)) = 0 := by
      intro rs
      rw [List.countP_eq_zero]
      intro x hx
      obtain ⟨r, _, hr⟩ := List.mem_map.mp hx
      subst hr
      simpa using trimmed_result_ne_errRec r m
    simp [List.countP_append, List.countP_cons, hz]
  · have := hstream.length_eq
    simp [List.length_append] at this
    omega

/-- A concrete response function for the C1 witness: backend b fails with
HTTP 503, backends a and c succeed. -/
def sampleResp : String → HttpOutcome :=
  fun indexer_id =>
    if indexer_id = "b" then .response 503 (.ok none)
    else if indexer_id = "a" then .response 200 (.ok (some [[("Title", "x")]]))
    else .response 200 (.ok (some []))

/-- Witness for C1 at a concrete registry, completion order and responses. -/
theorem event_generator_failure_isolation_witness :
    ∃ m,
      (event_generator ["b", "a", "c"] sampleResp).Perm
        (([[("Title", "x")]] : List RawResult).map trimmed_result ++
          ([] : List RawResult).map trimmed_result ++ [errRec m]) ∧
      (∃ s, m = "Error fetching from indexer " ++ "b" ++ ": " ++ s ∨
            m = "Exception fetching from indexer " ++ "b" ++ ": " ++ s) ∧
      (event_generator ["b", "a", "c"] sampleResp).countP (fun x => decide (x = errRec m)) = 1 ∧
      (event_generator ["b", "a", "c"] sampleResp).length =
        ([[("Title", "x")]] : List RawResult).length + ([] : List RawResult).length + 1 :=
  event_generator_failure_isolation "a" "b" "c" [[("Title", "x")]] []
    ["b", "a", "c"] sampleResp (by decide) (by decide) (by decide)
    (by decide) rfl rfl rfl

/-! ## The indexer registry cache (main.py lines 34-38, 94-131, 147-156)

State visible to the cache code: the cache file on disk and the
process-memory timestamp `last_cache_update` (main.py line 38 initializes
it to `datetime.now()` at module load, i.e. to the process start time).
Time is modelled in minutes (`CACHE_DURATION = timedelta(minutes=30)`);
the two `datetime.now()` reads inside one call are collapsed into the
single per-call instant `now`.

Each call's environment supplies what the outside world would do during
that call: the current time, the upstream response to
`GET /api/v2.0/indexers` if it is issued, and the fate of the cache-file
write if one is attempted.  The write is guarded by
`except (FileNotFoundError, json.JSONDecodeError)`; any other raised
error (e.g. `PermissionError`) is not in that tuple and propagates, so
the model splits write failures into caught and uncaught ones (an
uncaught failure is modelled as `open` itself raising: the file and the
timestamp are left unchanged and the call raises). -/

/-- On-disk state of `configured_indexers.json`: missing, readable JSON
(a list of indexer ids), or present but unparseable (`json.load` raises
`JSONDecodeError`, which the read path catches). -/
inductive FileState where
  | absent
  | valid (snapshot : List String)
  | corrupt
deriving DecidableEq

/-- Python `os.path.exists(CACHE_FILE)`. -/
def FileState.existsOnDisk : FileState → Bool
  | .absent => false
  | _ => true

/-- The cache's mutable state: the cache file and the process-memory
`last_cache_update` timestamp (minutes). -/
structure CacheState where
  file : FileState
  last_cache_update : Nat
deriving DecidableEq

/-- `CACHE_DURATION = timedelta(minutes=30)` (main.py line 35). -/
def CACHE_DURATION : Nat := 30

/-- One element of the upstream indexer-list response: a JSON object whose
`id` and `configured` fields may each be absent. -/
structure IndexerEntry where
  id : Option String
  configured : Option Bool
deriving DecidableEq

/-- Outcome of the upstream `GET /api/v2.0/indexers` request, were it
issued: a response with a status, reason text and parsed body, or an
`aiohttp.ClientError` while connecting. -/
inductive UpstreamOutcome where
  | response (status : Nat) (reason : String) (body : List IndexerEntry)
  | clientError (msg : String)

/-- How an attempted cache-file write would end: success; a failure in the
caught tuple `(FileNotFoundError, json.JSONDecodeError)` (logged, the call
proceeds); or any other raised error (e.g. `PermissionError`), which the
`except` clause does not match and which therefore propagates. -/
inductive WriteOutcome where
  | ok
  | caughtError (msg : String)
  | uncaughtError (msg : String)
deriving DecidableEq

/-- The per-call environment: the clock, the upstream's behavior and the
cache-file write's fate during this call. -/
structure Env where
  now : Nat
  upstream : UpstreamOutcome
  write : WriteOutcome

/-- An exception escaping one of the registry operations:
`HTTPException(status, detail)` raised for upstream failures, the
`KeyError` from `indexer["id"]` on a configured entry without an id, or an
uncaught OS error from the cache-file write. -/
inductive RegistryError where
  | httpException (status : Nat) (detail : String)
  | keyError
  | osError (msg : String)
deriving DecidableEq

/-- main.py line 122: the list comprehension
`[indexer["id"] for indexer in indexers_data if indexer.get("configured", False)]`.
Entries whose `configured` field is absent default to `False` and are
skipped; a kept entry without an `id` raises `KeyError`, aborting the
whole comprehension. -/
def filterConfigured : List IndexerEntry → Except RegistryError (List String)
  | [] => .ok []
  | e :: rest =>
    if e.configured.getD false then
      match e.id with
      | some i => (filterConfigured rest).map (fun l => i :: l)
      | none => .error .keyError
    else filterConfigured rest

/-- main.py lines 114-131: `get_configured_indexers`.  On 200, filters the
body to the configured entries' ids (the `KeyError` from a missing id is
not an `aiohttp.ClientError`, so it escapes the `try`); on non-200 raises
`HTTPException(status)`; on a connection error raises
`HTTPException(500)`. -/
def get_configured_indexers (upstream : UpstreamOutcome) :
    Except RegistryError (List String) :=
  match upstream with
  | .response status reason body =>
    if status = 200 then filterConfigured body
    else .error (.httpException status
      ("Jackett API Error: " ++ toString status ++ " - " ++ reason))
  | .clientError msg =>
    .error (.httpException 500 ("Error connecting to Jackett API: " ++ msg))

/-- main.py lines 103-112: the STALE-path body shared by the cache miss
and the stale branches — refresh from upstream, try to persist, then set
`last_cache_update = datetime.now()`.  Returns (result, new state, number
of upstream list calls made).  On an upstream error the exception
propagates before any write; on an uncaught write error the exception
propagates before the timestamp update (line 111 never runs). -/
def refreshFromJackett (st : CacheState) (env : Env) :
    Except RegistryError (List String) × CacheState × Nat :=
  match get_configured_indexers env.upstream with
  | .error e => (.error e, st, 1)
  | .ok indexers =>
    match env.write with
    | .ok => (.ok indexers, ⟨.valid indexers, env.now⟩, 1)
    | .caughtError _ => (.ok indexers, ⟨st.file, env.now⟩, 1)
    | .uncaughtError m => (.error (.osError m), st, 1)

/-- main.py lines 94-112: `get_configured_indexers_from_file`, the
TTL-tolerant registry accessor.  If the cache file exists and
`now - last_cache_update < CACHE_DURATION`, it serves the file's snapshot
without contacting upstream (a corrupt file's `JSONDecodeError` is caught
and falls through to the refresh); otherwise it runs the refresh path. -/
def get_configured_indexers_from_file (st : CacheState) (env : Env) :
    Except RegistryError (List String) × CacheState × Nat :=
  if st.file.existsOnDisk ∧ env.now - st.last_cache_update < CACHE_DURATION then
    match st.file with
    | .valid snap => (.ok snap, st, 0)
    | _ => refreshFromJackett st env
  else refreshFromJackett st env

/-- main.py lines 147-156: the `GET /indexers` handler.  Always calls
`get_configured_indexers` (no TTL check), tries to persist the result,
and — unlike the accessor — never touches `last_cache_update`. -/
def get_indexers (st : CacheState) (env : Env) :
    Except RegistryError (List String) × CacheState × Nat :=
  match get_configured_indexers env.upstream with
  | .error e => (.error e, st, 1)
  | .ok indexers =>
    match env.write with
    | .ok => (.ok indexers, ⟨.valid indexers, st.last_cache_update⟩, 1)
    | .caughtError _ => (.ok indexers, st, 1)
    | .uncaughtError m => (.error (.osError m), st, 1)

/-- The refresh path always issues exactly one upstream list call,
whatever the upstream and the write do. -/
theorem refreshFromJackett_count (st : CacheState) (env : Env) :
    (refreshFromJackett st env).2.2 = 1 := by
  unfold refreshFromJackett
  split
  · rfl
  · split <;> rfl

/-! ## Claims about the registry cache -/

/-- C4: idempotence of the TTL-tolerant accessor with respect to upstream
traffic, from a cold start (no cache file) with a successful refresh and a
successful write.  The first call issues one upstream list call; a second
call within the 30-minute TTL window issues none (total: one); a second
call past the TTL issues one more (total: two). -/
theorem cache_ttl_idempotence (st : CacheState) (env₁ env₂ env₃ : Env)
    (l : List String)
    (hfile : st.file = .absent)
    (hup : get_configured_indexers env₁.upstream = .ok l)
    (hw : env₁.write = .ok)
    (hfresh : env₂.now - env₁.now < CACHE_DURATION)
    (hstale : CACHE_DURATION ≤ env₃.now - env₁.now) :
    (get_configured_indexers_from_file st env₁).2.2 = 1 ∧
    (get_configured_indexers_from_file
        (get_configured_indexers_from_file st env₁).2.1 env₂).2.2 = 0 ∧
    (get_configured_indexers_from_file
        (get_configured_indexers_from_file st env₁).2.1 env₃).2.2 = 1 := by
  have h1 : get_configured_indexers_from_file st env₁
      = (.ok l, ⟨.valid l, env₁.now⟩, 1) := by
    simp [get_configured_indexers_from_file, hfile, FileState.existsOnDisk,
      refreshFromJackett, hup, hw]
  refine ⟨by rw [h1], ?_, ?_⟩
  · rw [h1]
    simp [get_configured_indexers_from_file, FileState.existsOnDisk, hfresh]
  · rw [h1]
    have hge : ¬ (env₃.now - env₁.now < CACHE_DURATION) := Nat.not_lt.mpr hstale
    simp [get_configured_indexers_from_file, FileState.existsOnDisk, hge,
      refreshFromJackett_count]

/-- Witness for C4: cold start at minute 0, second call at minute 10
(fresh) or minute 40 (stale). -/
theorem cache_ttl_idempotence_witness :
    (get_configured_indexers_from_file ⟨.absent, 0⟩
        ⟨0, .response 200 "OK" [⟨some "a", some true⟩], .ok⟩).2.2 = 1 ∧
    (get_configured_indexers_from_file
        (get_configured_indexers_from_file ⟨.absent, 0⟩
          ⟨0, .response 200 "OK" [⟨some "a", some true⟩], .ok⟩).2.1
        ⟨10, .clientError "unused", .ok⟩).2.2 = 0 ∧
    (get_configured_indexers_from_file
        (get_configured_indexers_from_file ⟨.absent, 0⟩
          ⟨0, .response 200 "OK" [⟨some "a", some true⟩], .ok⟩).2.1
        ⟨40, .response 200 "OK" [], .ok⟩).2.2 = 1 :=
  cache_ttl_idempotence ⟨.absent, 0⟩
    ⟨0, .response 200 "OK" [⟨some "a", some true⟩], .ok⟩
    ⟨10, .clientError "unused", .ok⟩
    ⟨40, .response 200 "OK" [], .ok⟩
    ["a"] rfl rfl rfl (by decide) (by decide)

/-- C5 counterexample: a freshly restarted process has
`last_cache_update = datetime.now()` set at module load (main.py line 38),
so with a persisted cache file of arbitrary age the first use 5 minutes
after start is treated as FRESH: the file's snapshot is served and zero
upstream refresh calls are made (the upstream here is even unreachable),
contradicting "always treats the registry as STALE and performs an
upstream refresh". -/
theorem restart_stale_counterexample :
    get_configured_indexers_from_file ⟨.valid ["a"], 0⟩
        ⟨5, .clientError "upstream down", .ok⟩
      = (.ok ["a"], ⟨.valid ["a"], 0⟩, 0) := rfl

/-- C5 amended: after a restart the TTL clock restarts at the process
start time `t₀` (it lives only in process memory, not in the file), so
the first use treats an existing readable cache file as FRESH whenever it
happens within 30 minutes of process start, regardless of the file's age;
it refreshes only once 30 minutes of uptime have passed, or when the file
is missing or corrupt. -/
theorem restart_first_use (snap : List String) (t₀ : Nat) (env : Env) :
    (env.now - t₀ < CACHE_DURATION →
      get_configured_indexers_from_file ⟨.valid snap, t₀⟩ env
        = (.ok snap, ⟨.valid snap, t₀⟩, 0)) ∧
    (CACHE_DURATION ≤ env.now - t₀ →
      (get_configured_indexers_from_file ⟨.valid snap, t₀⟩ env).2.2 = 1) ∧
    (get_configured_indexers_from_file ⟨.absent, t₀⟩ env).2.2 = 1 ∧
    (get_configured_indexers_from_file ⟨.corrupt, t₀⟩ env).2.2 = 1 := by
  refine ⟨?_, ?_, ?_, ?_⟩
  · intro hfresh
    simp [get_configured_indexers_from_file, FileState.existsOnDisk, hfresh]
  · intro hstale
    have hge : ¬ (env.now - t₀ < CACHE_DURATION) := Nat.not_lt.mpr hstale
    simp [get_configured_indexers_from_file, FileState.existsOnDisk, hge,
      refreshFromJackett_count]
  · simp [get_configured_indexers_from_file, FileState.existsOnDisk,
      refreshFromJackett_count]
  · simp [get_configured_indexers_from_file, FileState.existsOnDisk,
      refreshFromJackett_count]

/-- Witness for C5 amended, at process start time 0. -/
theorem restart_first_use_witness :
    ((5 : Nat) - 0 < CACHE_DURATION →
      get_configured_indexers_from_file ⟨.valid ["a"], 0⟩
          ⟨5, .clientError "upstream down", .ok⟩
        = (.ok ["a"], ⟨.valid ["a"], 0⟩, 0)) ∧
    (CACHE_DURATION ≤ (5 : Nat) - 0 →
      (get_configured_indexers_from_file ⟨.valid ["a"], 0⟩
          ⟨5, .clientError "upstream down", .ok⟩).2.2 = 1) ∧
    (get_configured_indexers_from_file ⟨.absent, 0⟩
        ⟨5, .clientError "upstream down", .ok⟩).2.2 = 1 ∧
    (get_configured_indexers_from_file ⟨.corrupt, 0⟩
        ⟨5, .clientError "upstream down", .ok⟩).2.2 = 1 :=
  restart_first_use ["a"] 0 ⟨5, .clientError "upstream down", .ok⟩

/-- C6 (code bug): the persistence `except` clause (main.py line 108)
lists only `(FileNotFoundError, json.JSONDecodeError)`, so a write
failure such as `PermissionError` escapes: the refresh fetched `["a"]`
from upstream (one list call), yet the call raises and the freshly
fetched snapshot is not returned — and `last_cache_update` (line 111,
after the write) is never set.  This contradicts the spec's "a
persistence failure is logged and non-fatal; the in-memory snapshot is
still returned". -/
theorem write_failure_uncaught :
    get_configured_indexers_from_file ⟨.absent, 0⟩
        ⟨0, .response 200 "OK" [⟨some "a", some true⟩],
          .uncaughtError "PermissionError: denied"⟩
      = (.error (.osError "PermissionError: denied"), ⟨.absent, 0⟩, 1) := rfl

/-- An entry whose `configured` field is absent is skipped wherever it
occurs in the upstream list. -/
theorem filterConfigured_skip_unconfigured (e : IndexerEntry)
    (hc : e.configured = none) :
    ∀ l₁ l₂, filterConfigured (l₁ ++ e :: l₂) = filterConfigured (l₁ ++ l₂) := by
  intro l₁
  induction l₁ with
  | nil =>
    intro l₂
    simp [filterConfigured, hc]
  | cons a t ih =>
    intro l₂
    simp only [List.cons_append, filterConfigured, List.append_eq]
    rw [ih]

/-- A configured entry without an `id` aborts the whole comprehension with
a `KeyError`, however the rest of the list looks, provided the part before
it went through. -/
theorem filterConfigured_missing_id (e : IndexerEntry)
    (hc : e.configured = some true) (hid : e.id = none) :
    ∀ (l₁ l₂ : List IndexerEntry) (xs : List String),
      filterConfigured l₁ = .ok xs →
      filterConfigured (l₁ ++ e :: l₂) = .error .keyError := by
  intro l₁
  induction l₁ with
  | nil =>
    intro l₂ xs _
    simp [filterConfigured, hc, hid]
  | cons a t ih =>
    intro l₂ xs hok
    simp only [List.cons_append, filterConfigured, List.append_eq] at hok ⊢
    by_cases hca : a.configured.getD false = true
    · rw [if_pos hca] at hok ⊢
      cases hia : a.id with
      | none =>
        rw [hia] at hok
      | some i =>
        cases htt : filterConfigured t with
        | error er =>
          rw [htt] at hok
          exact absurd hok (by simp [hia, Except.map])
        | ok ys =>
          simp [hia, ih l₂ ys htt, Except.map]
    · rw [if_neg hca] at hok ⊢
      exact ih l₂ xs hok

/-- C9: during a registry refresh, an upstream entry whose `configured`
field is absent is treated as not configured and skipped; but an entry
marked configured that lacks an `id` makes `indexer["id"]` raise, so the
whole refresh fails with an uncaught key-lookup error instead of the
entry being skipped or turned into a structured error. -/
theorem registry_entry_handling (l₁ l₂ : List IndexerEntry)
    (e e' : IndexerEntry) (xs : List String) (reason : String) :
    (e.configured = none →
      filterConfigured (l₁ ++ e :: l₂) = filterConfigured (l₁ ++ l₂)) ∧
    (e'.configured = some true → e'.id = none → filterConfigured l₁ = .ok xs →
      get_configured_indexers (.response 200 reason (l₁ ++ e' :: l₂))
        = .error .keyError) := by
  constructor
  · intro hc
    exact filterConfigured_skip_unconfigured e hc l₁ l₂
  · intro hc hid hok
    simp only [get_configured_indexers, if_pos rfl]
    exact filterConfigured_missing_id e' hc hid l₁ l₂ xs hok

/-- Witness for C9: a skipped entry without `configured`, and a refresh
aborted by a configured entry without `id`. -/
theorem registry_entry_handling_witness :
    ((⟨some "x", none⟩ : IndexerEntry).configured = none →
      filterConfigured ([⟨some "a", some true⟩] ++ (⟨some "x", none⟩ : IndexerEntry) :: [])
        = filterConfigured ([⟨some "a", some true⟩] ++ [])) ∧
    ((⟨none, some true⟩ : IndexerEntry).configured = some true →
      (⟨none, some true⟩ : IndexerEntry).id = none →
      filterConfigured [⟨some "a", some true⟩] = .ok ["a"] →
      get_configured_indexers
          (.response 200 "OK" ([⟨some "a", some true⟩] ++ (⟨none, some true⟩ : IndexerEntry) :: []))
        = .error .keyError) :=
  registry_entry_handling [⟨some "a", some true⟩] []
    ⟨some "x", none⟩ ⟨none, some true⟩ ["a"] "OK"

/-- C10: the `GET /indexers` handler leaves the in-memory
`last_cache_update` timestamp unchanged in every case (first conjunct,
the frame property), while still writing the refreshed snapshot to the
cache file when the refresh and the write succeed (second conjunct); by
contrast, a refresh through the TTL-tolerant accessor does set the
timestamp to the time of the call (third conjunct).  Hence a `/indexers`
call never extends or resets the search path's 30-minute freshness
window. -/
theorem indexers_route_frame (st : CacheState) (env : Env) (l : List String) :
    ((get_indexers st env).2.1.last_cache_update = st.last_cache_update) ∧
    (get_configured_indexers env.upstream = .ok l → env.write = .ok →
      (get_indexers st env).2.1.file = .valid l) ∧
    (st.file = .absent → get_configured_indexers env.upstream = .ok l →
      env.write = .ok →
      (get_configured_indexers_from_file st env).2.1.last_cache_update = env.now) := by
  refine ⟨?_, ?_, ?_⟩
  · unfold get_indexers
    split
    · rfl
    · split <;> rfl
  · intro hup hw
    simp [get_indexers, hup, hw]
  · intro hfile hup hw
    simp [get_configured_indexers_from_file, hfile, FileState.existsOnDisk,
      refreshFromJackett, hup, hw]

/-- Witness for C10 at a concrete state and environment. -/
theorem indexers_route_frame_witness :
    ((get_indexers ⟨.absent, 3⟩
        ⟨7, .response 200 "OK" [⟨some "a", some true⟩], .ok⟩).2.1.last_cache_update = 3) ∧
    (get_configured_indexers (.response 200 "OK" [⟨some "a", some true⟩]) = .ok ["a"] →
      (.ok : WriteOutcome) = .ok →
      (get_indexers ⟨.absent, 3⟩
          ⟨7, .response 200 "OK" [⟨some "a", some true⟩], .ok⟩).2.1.file = .valid ["a"]) ∧
    ((FileState.absent : FileState) = .absent →
      get_configured_indexers (.response 200 "OK" [⟨some "a", some true⟩]) = .ok ["a"] →
      (.ok : WriteOutcome) = .ok →
      (get_configured_indexers_from_file ⟨.absent, 3⟩
          ⟨7, .response 200 "OK" [⟨some "a", some true⟩], .ok⟩).2.1.last_cache_update = 7) :=
  indexers_route_frame ⟨.absent, 3⟩
    ⟨7, .response 200 "OK" [⟨some "a", some true⟩], .ok⟩ ["a"]
